import Mathlib

/-! Spec2Proof:
Verification of the score-import orchestration pipeline
(`src/server/src/score-import/framework/score-import-main.ts`).

The TypeScript source is shallowly embedded:
* `ParseImportInfo` (lines 203–226) becomes a left fold over the list of
  conversion outcomes, with the JavaScript `Set` modelled as an
  insertion-ordered duplicate-free list and the dynamically keyed
  `scorePlaytypeMap` object modelled as an association list.
* `UpdateUsersGameStats` (lines 187–201) becomes a join over a list of
  `Except` results (`Promise.all` + `flat(1)`).
* `ScoreImportMain` (lines 22–185) becomes a pure function parameterised by
  its external collaborators (each returning `Except`), two clocks given as
  call-indexed functions, and returning the caller-visible result together
  with the lists of writes made to the `imports` and `import-timings` sinks.
  JavaScript numbers produced by duration arithmetic are modelled as `ℚ`
  where the source guarantees a finite value, and as `JsNumber`
  (rational, `NaN`, or `±Infinity`) for the per-item relative durations,
  whose divisor can be a zero item count: `jsDiv` reproduces the JS rule
  that division never raises but `0 / 0` is `NaN` and `x / 0` a signed
  infinity.
-/

/-- A normalized score, as read by the orchestrator: only the fields the
orchestrator touches (`scoreID`, `chartID`, `playtype`) are modelled. -/
structure Score where
  scoreID : String
  chartID : String
  playtype : String
deriving DecidableEq, Repr

/-- Type `ImportProcessingInfo`: the per-record conversion outcome — a tagged
union of success-with-score or failure-with-message. -/
inductive ImportProcessingInfo where
  | success (type : String) (score : Score)
  | failure (type : String) (message : String)
deriving DecidableEq, Repr

/-- The `{type, message}` pair pushed onto `errors` for a failed outcome
(line 221 of the source). -/
structure ImportErr where
  type : String
  message : String
deriving DecidableEq, Repr

/-- The four structures returned by `ParseImportInfo` (line 225).
`chartIDs` models the JavaScript `Set` as an insertion-ordered list without
duplicates; `scorePlaytypeMap` models the null-prototype object as an
association list in key-insertion order. -/
structure ParseResult where
  scoreIDs : List String
  errors : List ImportErr
  scorePlaytypeMap : List (String × List Score)
  chartIDs : List String
deriving Repr

/-- JS `Set.add`: insert `x` unless already present (JS `Set` semantics,
insertion order preserved). -/
def setAdd (s : List String) (x : String) : List String :=
  if x ∈ s then s else s ++ [x]

/-- Lookup of `scorePlaytypeMap[pt]` on the association-list model. -/
def lookupGroup (m : List (String × List Score)) (pt : String) :
    Option (List Score) :=
  match m with
  | [] => none
  | (k, v) :: rest => if k = pt then some v else lookupGroup rest pt

/-- Lines 215–219 of the source: if the playtype key exists, push the score
onto its list; otherwise create the key with a singleton list (new keys go
to the end, matching object key-insertion order). -/
def mapPush (m : List (String × List Score)) (pt : String) (sc : Score) :
    List (String × List Score) :=
  match m with
  | [] => [(pt, [sc])]
  | (k, v) :: rest =>
    if k = pt then (k, v ++ [sc]) :: rest else (k, v) :: mapPush rest pt sc

/-- One iteration of the `for (const info of importInfo)` loop
(lines 210–223). -/
def parseStep (acc : ParseResult) (info : ImportProcessingInfo) :
    ParseResult :=
  match info with
  | .success _t sc =>
    { acc with
      scoreIDs := acc.scoreIDs ++ [sc.scoreID]
      chartIDs := setAdd acc.chartIDs sc.chartID
      scorePlaytypeMap := mapPush acc.scorePlaytypeMap sc.playtype sc }
  | .failure t msg =>
    { acc with errors := acc.errors ++ [⟨t, msg⟩] }

/-- The empty initial state of `ParseImportInfo` (lines 204–208). -/
def initParse : ParseResult :=
  { scoreIDs := [], errors := [], scorePlaytypeMap := [], chartIDs := [] }

/-- Function `ParseImportInfo` (lines 203–226): one linear scan over the conversion
outcomes. -/
def ParseImportInfo (importInfo : List ImportProcessingInfo) : ParseResult :=
  importInfo.foldl parseStep initParse

/-- The scores of the successful outcomes, in input order. -/
def acceptedScores (l : List ImportProcessingInfo) : List Score :=
  l.filterMap fun i =>
    match i with
    | .success _ sc => some sc
    | .failure _ _ => none

/-- The `{type, message}` records of the failed outcomes, in input order. -/
def failedRecords (l : List ImportProcessingInfo) : List ImportErr :=
  l.filterMap fun i =>
    match i with
    | .success _ _ => none
    | .failure t msg => some ⟨t, msg⟩

/-- Does some accepted outcome carry chart ID `c`? -/
def hasAcceptedChart (l : List ImportProcessingInfo) (c : String) : Bool :=
  l.any fun i =>
    match i with
    | .success _ sc => sc.chartID = c
    | .failure _ _ => false

/-- Does some accepted outcome carry playtype `pt`? -/
def hasAcceptedPlaytype (l : List ImportProcessingInfo) (pt : String) : Bool :=
  l.any fun i =>
    match i with
    | .success _ sc => sc.playtype = pt
    | .failure _ _ => false

/-- The accepted scores whose playtype is `pt`, in input order. -/
def acceptedScoresOf (l : List ImportProcessingInfo) (pt : String) :
    List Score :=
  (acceptedScores l).filter fun sc => sc.playtype = pt

/-- The action of one outcome on the `scorePlaytypeMap` alone. -/
def mapStep (m : List (String × List Score)) (i : ImportProcessingInfo) :
    List (String × List Score) :=
  match i with
  | .success _ sc => mapPush m sc.playtype sc
  | .failure _ _ => m

/-- The three logger channels used at finalization (lines 150–156):
`info` (high severity), `verbose` (medium), `debug` (low). -/
inductive LogSeverity where
  | info
  | verbose
  | debug
deriving DecidableEq, Repr

/-- Lines 150–156 of the source: the channel for the final log message as
a function of `scoreIDs.length`. -/
def chooseLogSeverity (n : Nat) : LogSeverity :=
  if n > 500 then .info else if n > 1 then .verbose else .debug

/-- Semantics of `Promise.all` on an already-built list of outcomes: succeeds with all
values when every entry succeeded, otherwise fails (with the first listed
failure standing in for whichever rejection wins the race). -/
def collectAll {ε δ : Type} (ps : List (Except ε (List δ))) : Except ε (List (List δ)) :=
  match ps with
  | [] => .ok []
  | p :: rest =>
    match p with
    | .error e => .error e
    | .ok v =>
      match collectAll rest with
      | .error e => .error e
      | .ok vs => .ok (v :: vs)

/-- Function `UpdateUsersGameStats` (lines 187–201): push one
`UpdateUsersGamePlaytypeStats` promise per playtype, await them all, and
flatten one level (`r.flat(1)`). The game/userID/logger arguments are
absorbed into the `update` collaborator. -/
def UpdateUsersGameStats {ε δ : Type} (update : String → Except ε (List δ))
    (playtypes : List String) : Except ε (List δ) :=
  match collectAll (playtypes.map update) with
  | .error e => .error e
  | .ok r => .ok r.flatten

/-- The only field of `PublicUserDocument` the orchestrator reads. -/
structure PublicUserDocument where
  id : Nat
deriving DecidableEq, Repr

/-- What the `InputParser(logger)` call yields (line 38): the iterable of raw data
and the target game. The converter function and shared context are
absorbed into the `importAllIterableData` collaborator. -/
structure ParsedInput (D : Type) where
  iterable : List D
  game : String

/-- The external collaborators of `ScoreImportMain`, each specified only
at its interface boundary: a call either returns a value or raises
(modelled as `Except`). `userID`, `importType` and logger arguments that
the orchestrator merely forwards are absorbed into the functions. -/
structure Collaborators (ε D σ δ γ μ : Type) where
  inputParser : Except ε (ParsedInput D)
  importAllIterableData : List D → Except ε (List ImportProcessingInfo)
  createSessions : String → List (String × List Score) → Except ε (List σ)
  processPBs : List String → Except ε Unit
  updateUsersGamePlaytypeStats : String → String → Except ε (List δ)
  updateUsersGoals : String → List String → Except ε γ
  updateUsersMilestones : γ → String → List String → Except ε μ

/-- The `ImportDocument` assembled at lines 127–141. -/
structure ImportDocument (σ δ γ μ : Type) where
  importType : String
  idStrings : List String
  scoreIDs : List String
  errors : List ImportErr
  importID : String
  timeFinished : Int
  timeStarted : Int
  createdSessions : List σ
  userID : Nat
  classDeltas : List δ
  goalInfo : γ
  milestoneInfo : μ
  userIntent : Bool
deriving DecidableEq, Repr, Inhabited

/-- A JavaScript number as it can come out of the source's relative-time
divisions: a finite value (kept exact as a rational; the claims here only
concern sign, `NaN` and the infinities, never rounding), `NaN`, or
`±Infinity`. -/
inductive JsNumber where
  | rat (q : ℚ)
  | nan
  | posInf
  | negInf
deriving DecidableEq, Repr, Inhabited

/-- The JS `>= 0` comparison on such a number: `NaN >= 0` is `false`,
`Infinity >= 0` is `true`, `-Infinity >= 0` is `false`. -/
def JsNumber.ge0 : JsNumber → Bool
  | .rat q => decide (0 ≤ q)
  | .nan => false
  | .posInf => true
  | .negInf => false

/-- JavaScript division of two finite numbers: division by zero never
raises but yields `NaN` for `0 / 0` and a signed infinity otherwise;
a nonzero divisor gives the finite quotient. -/
def jsDiv (a b : ℚ) : JsNumber :=
  if b = 0 then
    if a = 0 then .nan else if 0 < a then .posInf else .negInf
  else .rat (a / b)

/-- The record written to `import-timings` at lines 162–182. Absolute
durations are finite rationals; the per-item relative durations are
`JsNumber`s, since their divisor can be a zero item count. -/
structure TimingRecord where
  importID : String
  timestamp : Int
  total : Int
  relImport : JsNumber
  relImportParse : JsNumber
  relPb : JsNumber
  relSession : JsNumber
  absParse : ℚ
  absImport : ℚ
  absImportParse : ℚ
  absSession : ℚ
  absPb : ℚ
  absUgs : ℚ
  absGoal : ℚ
  absMilestone : ℚ
deriving DecidableEq, Repr, Inhabited

/-- Everything the caller and the two persistence sinks observe from one
run of `ScoreImportMain`: the returned (or raised) value, the writes to
`db.imports`, the writes to `db["import-timings"]`, and the channel of the
final log message. -/
structure RunResult (ε σ δ γ μ : Type) where
  result : Except ε (ImportDocument σ δ γ μ)
  importsWrites : List (ImportDocument σ δ γ μ)
  timingWrites : List TimingRecord
  logSeverity : Option LogSeverity
deriving Repr

/-- Modelled from the spec: `GetMilisecondsSince` lives in
`src/server/src/core/hrtime-core.ts`, which is not under `src/`; per the
spec's §2/§6 it converts the elapsed high-resolution time since `start`
into milliseconds. The current `process.hrtime.bigint()` reading is passed
explicitly as `now`; a nanosecond count becomes milliseconds by dividing
by 10^6. -/
def GetMilisecondsSince (start now : Int) : ℚ :=
  ((now - start : Int) : ℚ) / 1000000

/-- Stages 1–9 of `ScoreImportMain` (lines 28–141 plus the timing payload
of lines 162–182): the pure data/timing computation threaded through the
collaborator calls, short-circuiting on the first raised error. `dateNow`
and `hrtime` give the successive readings of `Date.now()` and
`process.hrtime.bigint()` in call order. -/
def ScoreImportPipeline {ε D σ δ γ μ : Type} (c : Collaborators ε D σ δ γ μ)
    (user : PublicUserDocument) (userIntent : Bool) (importType : String)
    (importID : String) (dateNow hrtime : Nat → Int) :
    Except ε (ImportDocument σ δ γ μ × TimingRecord) :=
  let timeStarted := dateNow 0
  match c.inputParser with
  | .error e => .error e
  | .ok pi =>
    let parseTime := GetMilisecondsSince (hrtime 0) (hrtime 1)
    match c.importAllIterableData pi.iterable with
    | .error e => .error e
    | .ok importInfo =>
      let importTime := GetMilisecondsSince (hrtime 2) (hrtime 3)
      let importTimeRel := jsDiv importTime (importInfo.length : ℚ)
      let pr := ParseImportInfo importInfo
      let importParseTime := GetMilisecondsSince (hrtime 4) (hrtime 5)
      let importParseTimeRel := jsDiv importParseTime (importInfo.length : ℚ)
      match c.createSessions pi.game pr.scorePlaytypeMap with
      | .error e => .error e
      | .ok sessionInfo =>
        let sessionTime := GetMilisecondsSince (hrtime 6) (hrtime 7)
        let sessionTimeRel := jsDiv sessionTime (sessionInfo.length : ℚ)
        match c.processPBs pr.chartIDs with
        | .error e => .error e
        | .ok _ =>
          let pbTime := GetMilisecondsSince (hrtime 8) (hrtime 9)
          let pbTimeRel := jsDiv pbTime (pr.chartIDs.length : ℚ)
          let playtypes := pr.scorePlaytypeMap.map Prod.fst
          match UpdateUsersGameStats
              (c.updateUsersGamePlaytypeStats pi.game) playtypes with
          | .error e => .error e
          | .ok classDeltas =>
            let ugsTime := GetMilisecondsSince (hrtime 10) (hrtime 11)
            match c.updateUsersGoals pi.game pr.chartIDs with
            | .error e => .error e
            | .ok goalInfo =>
              let goalTime := GetMilisecondsSince (hrtime 12) (hrtime 13)
              match c.updateUsersMilestones goalInfo pi.game playtypes with
              | .error e => .error e
              | .ok milestoneInfo =>
                let milestoneTime :=
                  GetMilisecondsSince (hrtime 14) (hrtime 15)
                let timeFinished := dateNow 1
                let doc : ImportDocument σ δ γ μ :=
                  { importType := importType
                    idStrings := playtypes.map fun e => pi.game ++ ":" ++ e
                    scoreIDs := pr.scoreIDs
                    errors := pr.errors
                    importID := importID
                    timeFinished := timeFinished
                    timeStarted := timeStarted
                    createdSessions := sessionInfo
                    userID := user.id
                    classDeltas := classDeltas
                    goalInfo := goalInfo
                    milestoneInfo := milestoneInfo
                    userIntent := userIntent }
                let timing : TimingRecord :=
                  { importID := importID
                    timestamp := dateNow 2
                    total := timeFinished - timeStarted
                    relImport := importTimeRel
                    relImportParse := importParseTimeRel
                    relPb := pbTimeRel
                    relSession := sessionTimeRel
                    absParse := parseTime
                    absImport := importTime
                    absImportParse := importParseTime
                    absSession := sessionTime
                    absPb := pbTime
                    absUgs := ugsTime
                    absGoal := goalTime
                    absMilestone := milestoneTime }
                .ok (doc, timing)

/-- Function `ScoreImportMain` (lines 22–185): run the pipeline; a raised error
propagates to the caller with nothing persisted, otherwise the summary is
logged at the chosen severity, written once to `db.imports` (line 158),
and the fire-and-forget timing record is handed to `db["import-timings"]`
(lines 162–182). -/
def ScoreImportMain {ε D σ δ γ μ : Type} (c : Collaborators ε D σ δ γ μ)
    (user : PublicUserDocument) (userIntent : Bool) (importType : String)
    (importID : String) (dateNow hrtime : Nat → Int) :
    RunResult ε σ δ γ μ :=
  match ScoreImportPipeline c user userIntent importType importID
      dateNow hrtime with
  | .error e =>
    { result := .error e, importsWrites := [], timingWrites := []
      logSeverity := none }
  | .ok (doc, timing) =>
    { result := .ok doc
      importsWrites := [doc]
      timingWrites := [timing]
      logSeverity := some (chooseLogSeverity doc.scoreIDs.length) }

/-- Predicate: `e` is the error raised by the first failing collaborator call, every
earlier stage having succeeded on the data actually threaded to it. -/
def StageFails {ε D σ δ γ μ : Type} (c : Collaborators ε D σ δ γ μ) (e : ε) : Prop :=
  c.inputParser = .error e
    ∨ ∃ pi, c.inputParser = .ok pi
      ∧ (c.importAllIterableData pi.iterable = .error e
        ∨ ∃ importInfo, c.importAllIterableData pi.iterable = .ok importInfo
          ∧ (c.createSessions pi.game
                (ParseImportInfo importInfo).scorePlaytypeMap = .error e
            ∨ ∃ sessionInfo,
              c.createSessions pi.game
                  (ParseImportInfo importInfo).scorePlaytypeMap
                = .ok sessionInfo
              ∧ (c.processPBs (ParseImportInfo importInfo).chartIDs
                    = .error e
                ∨ (c.processPBs (ParseImportInfo importInfo).chartIDs
                      = .ok ()
                  ∧ (UpdateUsersGameStats
                        (c.updateUsersGamePlaytypeStats pi.game)
                        ((ParseImportInfo importInfo).scorePlaytypeMap.map
                          Prod.fst) = .error e
                    ∨ ∃ classDeltas,
                      UpdateUsersGameStats
                          (c.updateUsersGamePlaytypeStats pi.game)
                          ((ParseImportInfo
                            importInfo).scorePlaytypeMap.map Prod.fst)
                        = .ok classDeltas
                      ∧ (c.updateUsersGoals pi.game
                            (ParseImportInfo importInfo).chartIDs
                          = .error e
                        ∨ ∃ goalInfo,
                          c.updateUsersGoals pi.game
                              (ParseImportInfo importInfo).chartIDs
                            = .ok goalInfo
                          ∧ c.updateUsersMilestones goalInfo pi.game
                              ((ParseImportInfo
                                importInfo).scorePlaytypeMap.map Prod.fst)
                            = .error e))))))

/-- A concrete batch: three successes (subtypes SP, SP, DP — with a
repeated chart ID) and one failure. -/
def demoBatch : List ImportProcessingInfo :=
  [ .success "ir/direct" ⟨"sid1", "chart1", "SP"⟩,
    .failure "KTDataNotFound" "no such chart",
    .success "ir/direct" ⟨"sid2", "chart2", "DP"⟩,
    .success "ir/direct" ⟨"sid3", "chart1", "SP"⟩ ]

/-- Collaborators that all succeed, over concrete small types. -/
def goodCollab : Collaborators String Nat Nat Nat Nat Nat :=
  { inputParser := .ok ⟨[0, 1, 2, 3], "iidx"⟩
    importAllIterableData := fun _ => .ok demoBatch
    createSessions := fun _ _ => .ok [11]
    processPBs := fun _ => .ok ()
    updateUsersGamePlaytypeStats := fun _ _ => .ok [1]
    updateUsersGoals := fun _ _ => .ok 5
    updateUsersMilestones := fun _ _ _ => .ok 9 }

/-- The same collaborators with a failing session builder. -/
def badCollab : Collaborators String Nat Nat Nat Nat Nat :=
  { goodCollab with createSessions := fun _ _ => .error "CreateSessions failed" }

def demoUser : PublicUserDocument := ⟨42⟩

def demoDateNow : Nat → Int := fun n => 1000 + n

def demoHrtime : Nat → Int := fun n => 1000000 * n

def goodRun : RunResult String Nat Nat Nat Nat :=
  ScoreImportMain goodCollab demoUser true "ir/direct" "imp1"
    demoDateNow demoHrtime

def badRun : RunResult String Nat Nat Nat Nat :=
  ScoreImportMain badCollab demoUser true "ir/direct" "imp1"
    demoDateNow demoHrtime

/-- The ImportDocument that `goodRun` returns. -/
def goodDoc : ImportDocument Nat Nat Nat Nat :=
  goodRun.result.toOption.getD default

/-- The timing record that `goodRun` hands to the timing sink. -/
def goodTiming : TimingRecord :=
  goodRun.timingWrites.getD 0 default

/-- Collaborators for an import whose iterable yields no records. -/
def emptyCollab : Collaborators String Nat Nat Nat Nat Nat :=
  { inputParser := .ok ⟨[], "iidx"⟩
    importAllIterableData := fun _ => .ok []
    createSessions := fun _ _ => .ok []
    processPBs := fun _ => .ok ()
    updateUsersGamePlaytypeStats := fun _ _ => .ok []
    updateUsersGoals := fun _ _ => .ok 0
    updateUsersMilestones := fun _ _ _ => .ok 0 }

/-- A high-resolution clock whose successive readings coincide: monotone,
and it makes every stage duration exactly `0`. -/
def flatHrtime : Nat → Int := fun _ => 0

/-- An empty-batch run timed by `flatHrtime`: its import stage takes `0`
milliseconds over `0` records, so the recorded relative time is `0 / 0`. -/
def nanRun : RunResult String Nat Nat Nat Nat :=
  ScoreImportMain emptyCollab demoUser false "ir/direct" "imp3"
    demoDateNow flatHrtime

/-- The timing record that `nanRun` hands to the timing sink. -/
def nanTiming : TimingRecord :=
  nanRun.timingWrites.getD 0 default

/-- The `scoreIDs` component of the fold: each success appends its score ID. -/
lemma foldl_parseStep_scoreIDs (l : List ImportProcessingInfo)
    (acc : ParseResult) :
    (l.foldl parseStep acc).scoreIDs
      = acc.scoreIDs ++ (acceptedScores l).map Score.scoreID := by
  induction l generalizing acc with
  | nil => simp [acceptedScores]
  | cons i rest ih =>
    cases i with
    | success t sc =>
      simp [parseStep, acceptedScores, ih, List.filterMap_cons]
    | failure t msg =>
      simp [parseStep, acceptedScores, ih, List.filterMap_cons]

/-- The `errors` component of the fold: each failure appends its record. -/
lemma foldl_parseStep_errors (l : List ImportProcessingInfo)
    (acc : ParseResult) :
    (l.foldl parseStep acc).errors = acc.errors ++ failedRecords l := by
  induction l generalizing acc with
  | nil => simp [failedRecords]
  | cons i rest ih =>
    cases i with
    | success t sc =>
      simp [parseStep, failedRecords, ih, List.filterMap_cons]
    | failure t msg =>
      simp [parseStep, failedRecords, ih, List.filterMap_cons]

/-- Every outcome is exactly one of accepted or failed. -/
lemma acceptedScores_length_add_failedRecords_length
    (l : List ImportProcessingInfo) :
    (acceptedScores l).length + (failedRecords l).length = l.length := by
  induction l with
  | nil => simp [acceptedScores, failedRecords]
  | cons i rest ih =>
    cases i with
    | success t sc =>
      simp [acceptedScores, failedRecords, List.filterMap_cons] at *
      omega
    | failure t msg =>
      simp [acceptedScores, failedRecords, List.filterMap_cons] at *
      omega

/-- The `chartIDs` component of the fold: each success `setAdd`s its chart
ID. -/
lemma foldl_parseStep_chartIDs (l : List ImportProcessingInfo)
    (acc : ParseResult) :
    (l.foldl parseStep acc).chartIDs
      = ((acceptedScores l).map Score.chartID).foldl setAdd acc.chartIDs := by
  induction l generalizing acc with
  | nil => simp [acceptedScores]
  | cons i rest ih =>
    cases i with
    | success t sc =>
      simp [parseStep, acceptedScores, ih, List.filterMap_cons]
    | failure t msg =>
      simp [parseStep, acceptedScores, ih, List.filterMap_cons]

lemma mem_setAdd {s : List String} {x y : String} :
    x ∈ setAdd s y ↔ x ∈ s ∨ x = y := by
  unfold setAdd
  split
  · constructor
    · exact Or.inl
    · rintro (h | rfl) <;> assumption
  · simp

lemma nodup_setAdd {s : List String} (h : s.Nodup) (y : String) :
    (setAdd s y).Nodup := by
  unfold setAdd
  split
  · exact h
  · simpa [List.nodup_append] using ⟨h, by assumption⟩

lemma mem_foldl_setAdd (cs : List String) (s : List String) (x : String) :
    x ∈ cs.foldl setAdd s ↔ x ∈ s ∨ x ∈ cs := by
  induction cs generalizing s with
  | nil => simp
  | cons c rest ih =>
    simp only [List.foldl_cons, ih, mem_setAdd, List.mem_cons]
    tauto

lemma nodup_foldl_setAdd (cs : List String) {s : List String}
    (h : s.Nodup) : (cs.foldl setAdd s).Nodup := by
  induction cs generalizing s with
  | nil => exact h
  | cons c rest ih => exact ih (nodup_setAdd h c)

lemma hasAcceptedChart_iff (l : List ImportProcessingInfo) (c : String) :
    hasAcceptedChart l c = true
      ↔ c ∈ (acceptedScores l).map Score.chartID := by
  induction l with
  | nil => simp [hasAcceptedChart, acceptedScores]
  | cons i rest ih =>
    cases i with
    | success t sc =>
      simp [hasAcceptedChart, acceptedScores, List.filterMap_cons] at *
      constructor
      · rintro (rfl | h)
        · exact Or.inl rfl
        · exact Or.inr (ih.mp h)
      · rintro (rfl | h)
        · exact Or.inl rfl
        · exact Or.inr (ih.mpr h)
    | failure t msg =>
      simpa [hasAcceptedChart, acceptedScores, List.filterMap_cons] using ih

/-- The `scorePlaytypeMap` component of the fold evolves by `mapStep`. -/
lemma foldl_parseStep_scorePlaytypeMap (l : List ImportProcessingInfo)
    (acc : ParseResult) :
    (l.foldl parseStep acc).scorePlaytypeMap
      = l.foldl mapStep acc.scorePlaytypeMap := by
  induction l generalizing acc with
  | nil => rfl
  | cons i rest ih =>
    cases i with
    | success t sc => simp [parseStep, mapStep, ih]
    | failure t msg => simp [parseStep, mapStep, ih]

lemma lookupGroup_mapPush (m : List (String × List Score))
    (pt pt' : String) (sc : Score) :
    lookupGroup (mapPush m pt sc) pt'
      = if pt' = pt then some ((lookupGroup m pt).getD [] ++ [sc])
        else lookupGroup m pt' := by
  induction m with
  | nil =>
    by_cases h : pt' = pt
    · simp [mapPush, lookupGroup, h]
    · simp [mapPush, lookupGroup, h, Ne.symm h]
  | cons kv rest ih =>
    obtain ⟨k, v⟩ := kv
    by_cases hk : k = pt
    · subst hk
      by_cases h : pt' = k
      · simp [mapPush, lookupGroup, h]
      · simp [mapPush, lookupGroup, h, Ne.symm h]
    · by_cases h : pt' = pt
      · subst h
        simp [mapPush, lookupGroup, hk, ih, Ne.symm hk]
      · by_cases hk' : k = pt'
        · subst hk'
          simp [mapPush, lookupGroup, hk, ih, h]
        · simp [mapPush, lookupGroup, hk, ih, h, hk']

lemma hasAcceptedPlaytype_iff (l : List ImportProcessingInfo) (pt : String) :
    hasAcceptedPlaytype l pt = true
      ↔ ∃ sc ∈ acceptedScores l, sc.playtype = pt := by
  induction l with
  | nil => simp [hasAcceptedPlaytype, acceptedScores]
  | cons i rest ih =>
    cases i with
    | success t sc =>
      simp [hasAcceptedPlaytype, acceptedScores, List.filterMap_cons] at *
      constructor
      · rintro (h | h)
        · exact Or.inl h
        · exact Or.inr (ih.mp h)
      · rintro (h | h)
        · exact Or.inl h
        · exact Or.inr (ih.mpr h)
    | failure t msg =>
      simpa [hasAcceptedPlaytype, acceptedScores, List.filterMap_cons] using ih

lemma acceptedScoresOf_eq_nil_iff (l : List ImportProcessingInfo)
    (pt : String) :
    acceptedScoresOf l pt = [] ↔ hasAcceptedPlaytype l pt = false := by
  rw [acceptedScoresOf, List.filter_eq_nil_iff]
  rw [← Bool.not_eq_true, hasAcceptedPlaytype_iff]
  simp

/-- Master characterization of the grouping map built by the fold. -/
lemma lookupGroup_foldl_mapStep (l : List ImportProcessingInfo)
    (m : List (String × List Score)) (pt : String) :
    lookupGroup (l.foldl mapStep m) pt
      = match lookupGroup m pt with
        | some v => some (v ++ acceptedScoresOf l pt)
        | none =>
          if hasAcceptedPlaytype l pt then some (acceptedScoresOf l pt)
          else none := by
  induction l generalizing m with
  | nil =>
    cases h : lookupGroup m pt <;>
      simp [acceptedScoresOf, acceptedScores, hasAcceptedPlaytype, h]
  | cons i rest ih =>
    cases i with
    | success t sc =>
      by_cases hpt : sc.playtype = pt
      · have hcons : acceptedScoresOf (.success t sc :: rest) pt
            = sc :: acceptedScoresOf rest pt := by
          simp [acceptedScoresOf, acceptedScores, List.filterMap_cons,
            List.filter_cons, hpt]
        have hhas : hasAcceptedPlaytype (.success t sc :: rest) pt = true := by
          simp [hasAcceptedPlaytype, hpt]
        rw [List.foldl_cons]
        show lookupGroup (rest.foldl mapStep (mapPush m sc.playtype sc)) pt = _
        rw [ih, lookupGroup_mapPush, hpt, if_pos rfl, hcons, hhas]
        cases h : lookupGroup m pt <;> simp [h]
      · have hcons : acceptedScoresOf (.success t sc :: rest) pt
            = acceptedScoresOf rest pt := by
          simp [acceptedScoresOf, acceptedScores, List.filterMap_cons,
            List.filter_cons, hpt]
        have hhas : hasAcceptedPlaytype (.success t sc :: rest) pt
            = hasAcceptedPlaytype rest pt := by
          simp [hasAcceptedPlaytype, hpt]
        rw [List.foldl_cons]
        show lookupGroup (rest.foldl mapStep (mapPush m sc.playtype sc)) pt = _
        rw [ih, lookupGroup_mapPush, if_neg (by simpa using Ne.symm hpt),
          hcons, hhas]
    | failure t msg =>
      have hcons : acceptedScoresOf (.failure t msg :: rest) pt
          = acceptedScoresOf rest pt := by
        simp [acceptedScoresOf, acceptedScores, List.filterMap_cons]
      have hhas : hasAcceptedPlaytype (.failure t msg :: rest) pt
          = hasAcceptedPlaytype rest pt := by
        simp [hasAcceptedPlaytype]
      rw [List.foldl_cons]
      show lookupGroup (rest.foldl mapStep m) pt = _
      rw [ih, hcons, hhas]

/-- The grouping map produced by `ParseImportInfo`: a key is present iff
some accepted score has that playtype, and its group is then the ordered
filter of the accepted scores. -/
lemma lookupGroup_parseImportInfo (l : List ImportProcessingInfo)
    (pt : String) :
    lookupGroup (ParseImportInfo l).scorePlaytypeMap pt
      = if hasAcceptedPlaytype l pt then some (acceptedScoresOf l pt)
        else none := by
  unfold ParseImportInfo
  rw [foldl_parseStep_scorePlaytypeMap]
  have := lookupGroup_foldl_mapStep l initParse.scorePlaytypeMap pt
  simpa [initParse, lookupGroup] using this

lemma lookupGroup_isSome_iff (m : List (String × List Score)) (pt : String) :
    (lookupGroup m pt).isSome = true ↔ pt ∈ m.map Prod.fst := by
  induction m with
  | nil => simp [lookupGroup]
  | cons kv rest ih =>
    obtain ⟨k, v⟩ := kv
    by_cases hk : k = pt
    · simp [lookupGroup, hk]
    · simp [lookupGroup, hk, Ne.symm hk, ih]

lemma keys_mapPush (m : List (String × List Score)) (pt : String)
    (sc : Score) :
    (mapPush m pt sc).map Prod.fst
      = if pt ∈ m.map Prod.fst then m.map Prod.fst
        else m.map Prod.fst ++ [pt] := by
  induction m with
  | nil => simp [mapPush]
  | cons kv rest ih =>
    obtain ⟨k, v⟩ := kv
    by_cases hk : k = pt
    · simp [mapPush, hk]
    · by_cases hm : pt ∈ rest.map Prod.fst
      · simp [mapPush, hk, Ne.symm hk, hm, ih]
      · simp [mapPush, hk, Ne.symm hk, hm, ih]

lemma nodup_keys_foldl_mapStep (l : List ImportProcessingInfo)
    (m : List (String × List Score)) (h : (m.map Prod.fst).Nodup) :
    ((l.foldl mapStep m).map Prod.fst).Nodup := by
  induction l generalizing m with
  | nil => exact h
  | cons i rest ih =>
    cases i with
    | success t sc =>
      rw [List.foldl_cons]
      show ((rest.foldl mapStep (mapPush m sc.playtype sc)).map Prod.fst).Nodup
      refine ih _ ?_
      rw [keys_mapPush]
      by_cases hm : sc.playtype ∈ m.map Prod.fst
      · simpa [hm] using h
      · simpa [hm, List.nodup_append] using h
    | failure t msg => exact ih m h

lemma collectAll_map_ok {ε δ : Type} (update : String → Except ε (List δ))
    (f : String → List δ) (xs : List String)
    (h : ∀ x ∈ xs, update x = .ok (f x)) :
    collectAll (xs.map update) = .ok (xs.map f) := by
  induction xs with
  | nil => rfl
  | cons x rest ih =>
    have hx := h x (by simp)
    have hrest := ih fun y hy => h y (by simp [hy])
    simp only [List.map_cons, collectAll, hx, hrest]

lemma collectAll_error {ε δ : Type} (update : String → Except ε (List δ))
    (xs : List String) (x : String) (hx : x ∈ xs) (e : ε)
    (h : update x = .error e) :
    ∃ e', collectAll (xs.map update) = .error e' := by
  induction xs with
  | nil => cases hx
  | cons y rest ih =>
    rcases List.mem_cons.mp hx with hxy | hmem
    · subst hxy
      exact ⟨e, by simp [collectAll, h]⟩
    · cases hy : update y with
      | error e' => exact ⟨e', by simp [collectAll, hy]⟩
      | ok v =>
        obtain ⟨e', he'⟩ := ih hmem
        exact ⟨e', by simp [collectAll, hy, he']⟩

lemma GetMilisecondsSince_nonneg {a b : Int} (h : a ≤ b) :
    0 ≤ GetMilisecondsSince a b := by
  unfold GetMilisecondsSince
  apply div_nonneg
  · exact_mod_cast sub_nonneg.mpr h
  · norm_num

lemma jsDiv_ge0_of_pos {a b : ℚ} (ha : 0 ≤ a) (hb : 0 < b) :
    (jsDiv a b).ge0 = true := by
  unfold jsDiv
  rw [if_neg (ne_of_gt hb)]
  simp [JsNumber.ge0, div_nonneg ha hb.le]

lemma jsDiv_zero_right {a : ℚ} (ha : 0 ≤ a) :
    jsDiv a 0 = JsNumber.nan ∨ jsDiv a 0 = JsNumber.posInf := by
  unfold jsDiv
  rw [if_pos rfl]
  by_cases h : a = 0
  · exact Or.inl (by simp [h])
  · have ha' : 0 < a := lt_of_le_of_ne ha (Ne.symm h)
    exact Or.inr (by simp [h, ha'])

/-- The two ways the source's relative-time division of a nonnegative
duration by an item count can go: a nonnegative number at a positive
count, `NaN` or `+Infinity` at a zero count. -/
lemma jsDiv_count_cases {a : ℚ} (ha : 0 ≤ a) (n : Nat) :
    (0 < n → (jsDiv a (n : ℚ)).ge0 = true)
      ∧ (n = 0 → jsDiv a (n : ℚ) = JsNumber.nan
          ∨ jsDiv a (n : ℚ) = JsNumber.posInf) := by
  constructor
  · intro hn
    exact jsDiv_ge0_of_pos ha (by exact_mod_cast hn)
  · intro hn
    subst hn
    simpa using jsDiv_zero_right ha

/-- A pipeline error is exactly the error of the first failing stage. -/
lemma pipeline_error_stageFails {ε D σ δ γ μ : Type} (c : Collaborators ε D σ δ γ μ)
    (user : PublicUserDocument) (userIntent : Bool) (importType : String)
    (importID : String) (dateNow hrtime : Nat → Int) (e : ε)
    (h : ScoreImportPipeline c user userIntent importType importID
        dateNow hrtime = .error e) :
    StageFails c e := by
  unfold ScoreImportPipeline at h
  cases hp : c.inputParser with
  | error e0 =>
    rw [hp] at h
    simp at h
    subst h
    exact Or.inl hp
  | ok pi =>
    rw [hp] at h
    simp at h
    cases hi : c.importAllIterableData pi.iterable with
    | error e0 =>
      rw [hi] at h
      simp at h
      subst h
      exact Or.inr ⟨pi, hp, Or.inl hi⟩
    | ok importInfo =>
      rw [hi] at h
      simp at h
      cases hs : c.createSessions pi.game
          (ParseImportInfo importInfo).scorePlaytypeMap with
      | error e0 =>
        rw [hs] at h
        simp at h
        subst h
        exact Or.inr ⟨pi, hp, Or.inr ⟨importInfo, hi, Or.inl hs⟩⟩
      | ok sessionInfo =>
        rw [hs] at h
        simp at h
        cases hpb : c.processPBs (ParseImportInfo importInfo).chartIDs with
        | error e0 =>
          rw [hpb] at h
          simp at h
          subst h
          exact Or.inr ⟨pi, hp, Or.inr ⟨importInfo, hi,
            Or.inr ⟨sessionInfo, hs, Or.inl hpb⟩⟩⟩
        | ok u =>
          rw [hpb] at h
          simp at h
          cases hu : UpdateUsersGameStats
              (c.updateUsersGamePlaytypeStats pi.game)
              ((ParseImportInfo importInfo).scorePlaytypeMap.map
                Prod.fst) with
          | error e0 =>
            rw [hu] at h
            simp at h
            subst h
            exact Or.inr ⟨pi, hp, Or.inr ⟨importInfo, hi,
              Or.inr ⟨sessionInfo, hs, Or.inr ⟨hpb, Or.inl hu⟩⟩⟩⟩
          | ok classDeltas =>
            rw [hu] at h
            simp at h
            cases hg : c.updateUsersGoals pi.game
                (ParseImportInfo importInfo).chartIDs with
            | error e0 =>
              rw [hg] at h
              simp at h
              subst h
              exact Or.inr ⟨pi, hp, Or.inr ⟨importInfo, hi,
                Or.inr ⟨sessionInfo, hs, Or.inr ⟨hpb,
                  Or.inr ⟨classDeltas, hu, Or.inl hg⟩⟩⟩⟩⟩
            | ok goalInfo =>
              rw [hg] at h
              simp at h
              cases hm : c.updateUsersMilestones goalInfo pi.game
                  ((ParseImportInfo importInfo).scorePlaytypeMap.map
                    Prod.fst) with
              | error e0 =>
                rw [hm] at h
                simp at h
                subst h
                exact Or.inr ⟨pi, hp, Or.inr ⟨importInfo, hi,
                  Or.inr ⟨sessionInfo, hs, Or.inr ⟨hpb,
                    Or.inr ⟨classDeltas, hu,
                      Or.inr ⟨goalInfo, hg, hm⟩⟩⟩⟩⟩⟩
              | ok milestoneInfo =>
                rw [hm] at h
                simp at h

/-- On success the pipeline's document carries the first and second
`Date.now()` readings, and every duration field of the timing record is an
`hrtime` difference (absolute) or such a difference divided by an item
count (relative). -/
lemma pipeline_ok_timing {ε D σ δ γ μ : Type} (c : Collaborators ε D σ δ γ μ)
    (user : PublicUserDocument) (userIntent : Bool) (importType : String)
    (importID : String) (dateNow hrtime : Nat → Int)
    (doc : ImportDocument σ δ γ μ) (timing : TimingRecord)
    (h : ScoreImportPipeline c user userIntent importType importID
        dateNow hrtime = .ok (doc, timing)) :
    doc.timeStarted = dateNow 0 ∧ doc.timeFinished = dateNow 1
      ∧ timing.timestamp = dateNow 2
      ∧ timing.total = dateNow 1 - dateNow 0
      ∧ timing.absParse = GetMilisecondsSince (hrtime 0) (hrtime 1)
      ∧ timing.absImport = GetMilisecondsSince (hrtime 2) (hrtime 3)
      ∧ timing.absImportParse = GetMilisecondsSince (hrtime 4) (hrtime 5)
      ∧ timing.absSession = GetMilisecondsSince (hrtime 6) (hrtime 7)
      ∧ timing.absPb = GetMilisecondsSince (hrtime 8) (hrtime 9)
      ∧ timing.absUgs = GetMilisecondsSince (hrtime 10) (hrtime 11)
      ∧ timing.absGoal = GetMilisecondsSince (hrtime 12) (hrtime 13)
      ∧ timing.absMilestone = GetMilisecondsSince (hrtime 14) (hrtime 15)
      ∧ (∃ n : Nat, timing.relImport = jsDiv timing.absImport (n : ℚ)
          ∧ timing.relImportParse = jsDiv timing.absImportParse (n : ℚ))
      ∧ (∃ n : Nat, timing.relSession = jsDiv timing.absSession (n : ℚ))
      ∧ (∃ n : Nat, timing.relPb = jsDiv timing.absPb (n : ℚ)) := by
  unfold ScoreImportPipeline at h
  cases hp : c.inputParser with
  | error e0 => rw [hp] at h; simp at h
  | ok pi =>
    rw [hp] at h
    simp at h
    cases hi : c.importAllIterableData pi.iterable with
    | error e0 => rw [hi] at h; simp at h
    | ok importInfo =>
      rw [hi] at h
      simp at h
      cases hs : c.createSessions pi.game
          (ParseImportInfo importInfo).scorePlaytypeMap with
      | error e0 => rw [hs] at h; simp at h
      | ok sessionInfo =>
        rw [hs] at h
        simp at h
        cases hpb : c.processPBs (ParseImportInfo importInfo).chartIDs with
        | error e0 => rw [hpb] at h; simp at h
        | ok u =>
          rw [hpb] at h
          simp at h
          cases hu : UpdateUsersGameStats
              (c.updateUsersGamePlaytypeStats pi.game)
              ((ParseImportInfo importInfo).scorePlaytypeMap.map
                Prod.fst) with
          | error e0 => rw [hu] at h; simp at h
          | ok classDeltas =>
            rw [hu] at h
            simp at h
            cases hg : c.updateUsersGoals pi.game
                (ParseImportInfo importInfo).chartIDs with
            | error e0 => rw [hg] at h; simp at h
            | ok goalInfo =>
              rw [hg] at h
              simp at h
              cases hm : c.updateUsersMilestones goalInfo pi.game
                  ((ParseImportInfo importInfo).scorePlaytypeMap.map
                    Prod.fst) with
              | error e0 => rw [hm] at h; simp at h
              | ok milestoneInfo =>
                rw [hm] at h
                simp only [Except.ok.injEq, Prod.mk.injEq] at h
                obtain ⟨hdoc, htim⟩ := h
                subst hdoc
                subst htim
                refine ⟨rfl, rfl, rfl, rfl, rfl, rfl, rfl, rfl, rfl, rfl,
                  rfl, rfl, ⟨importInfo.length, rfl, rfl⟩,
                  ⟨sessionInfo.length, rfl⟩,
                  ⟨(ParseImportInfo importInfo).chartIDs.length, rfl⟩⟩

lemma demoDateNow_mono : Monotone demoDateNow := by
  intro a b h
  unfold demoDateNow
  omega

lemma demoHrtime_mono : Monotone demoHrtime := by
  intro a b h
  unfold demoHrtime
  omega

/-- C1.  For every input sequence of conversion outcomes, the
partitioner's outputs satisfy
`|acceptedScoreIDs| + |failures| = |conversionOutcomes|`: each outcome
contributes exactly one entry either to the accepted score-ID list or to
the failures list, never both and never neither. -/
theorem parseImportInfo_partition_length (l : List ImportProcessingInfo) :
    (ParseImportInfo l).scoreIDs.length + (ParseImportInfo l).errors.length
      = l.length := by
  unfold ParseImportInfo
  rw [foldl_parseStep_scoreIDs, foldl_parseStep_errors]
  simpa [initParse] using acceptedScores_length_add_failedRecords_length l

/-- C3.  For every input sequence of conversion outcomes, every chart ID
appearing in any accepted outcome is in the resulting `ChartIDSet` exactly
once — even when it occurs in several accepted outcomes — and no chart ID
without an accepted outcome is in the set. -/
theorem parseImportInfo_chartIDs_count (l : List ImportProcessingInfo)
    (c : String) :
    (ParseImportInfo l).chartIDs.count c
      = if hasAcceptedChart l c then 1 else 0 := by
  unfold ParseImportInfo
  rw [foldl_parseStep_chartIDs]
  have hnd : (((acceptedScores l).map Score.chartID).foldl setAdd
      initParse.chartIDs).Nodup :=
    nodup_foldl_setAdd _ (by simp [initParse])
  have hmem : c ∈ ((acceptedScores l).map Score.chartID).foldl setAdd
      initParse.chartIDs ↔ c ∈ (acceptedScores l).map Score.chartID := by
    simpa [initParse] using
      mem_foldl_setAdd ((acceptedScores l).map Score.chartID)
        initParse.chartIDs c
  by_cases h : hasAcceptedChart l c = true
  · rw [if_pos h]
    exact List.count_eq_one_of_mem hnd
      (hmem.mpr ((hasAcceptedChart_iff l c).mp h))
  · rw [if_neg h]
    rw [List.count_eq_zero]
    intro hc
    exact h ((hasAcceptedChart_iff l c).mpr (hmem.mp hc))

/-- C4.  For every input sequence of conversion outcomes and every
play-subtype, the sequence of scores stored in that subtype's group equals
the subsequence of accepted scores of that subtype in their original input
order (partitioning is stable within each group). -/
theorem parseImportInfo_group_stable (l : List ImportProcessingInfo)
    (pt : String) :
    (lookupGroup (ParseImportInfo l).scorePlaytypeMap pt).getD []
      = acceptedScoresOf l pt := by
  rw [lookupGroup_parseImportInfo]
  by_cases h : hasAcceptedPlaytype l pt
  · simp [h]
  · simp only [Bool.not_eq_true] at h
    simp [h, (acceptedScoresOf_eq_nil_iff l pt).mpr h]

/-- C8.  For every input sequence of conversion outcomes, a play-subtype
key is present in the resulting groups map iff at least one accepted score
has that subtype, and every present key's score list is non-empty. -/
theorem parseImportInfo_groups_nonempty (l : List ImportProcessingInfo)
    (pt : String) :
    (lookupGroup (ParseImportInfo l).scorePlaytypeMap pt).isSome
        = hasAcceptedPlaytype l pt
      ∧ lookupGroup (ParseImportInfo l).scorePlaytypeMap pt ≠ some [] := by
  rw [lookupGroup_parseImportInfo]
  by_cases h : hasAcceptedPlaytype l pt
  · refine ⟨by simp [h], ?_⟩
    simp only [h, if_pos]
    intro hc
    have : acceptedScoresOf l pt = [] := by simpa using hc
    rw [acceptedScoresOf_eq_nil_iff] at this
    simp [this] at h
  · simp only [Bool.not_eq_true] at h
    simp [h]

/-- C9.  The partitioner is order-preserving on both projections of the
whole batch: the accepted score-ID list is exactly the score IDs of the
accepted records in original order, and the failures list is exactly the
`{type, message}` records of the failed records in original order. -/
theorem parseImportInfo_order_preserving (l : List ImportProcessingInfo) :
    (ParseImportInfo l).scoreIDs = (acceptedScores l).map Score.scoreID
      ∧ (ParseImportInfo l).errors = failedRecords l := by
  unfold ParseImportInfo
  rw [foldl_parseStep_scoreIDs, foldl_parseStep_errors]
  simp [initParse]

/-- C5.  For the play-subtypes present in the groups map, the stage-7
fan-out invokes each subtype exactly once (the key list is duplicate-free
and covers exactly the subtypes with an accepted score), on success
returns the flattened union of the per-subtype results, and fails as a
whole as soon as any per-subtype update fails (no partial result). -/
theorem updateUsersGameStats_fanout {ε δ : Type}
    (update : String → Except ε (List δ)) (l : List ImportProcessingInfo)
    (f : String → List δ) :
    let pts := (ParseImportInfo l).scorePlaytypeMap.map Prod.fst
    pts.Nodup
      ∧ (∀ pt, pt ∈ pts ↔ hasAcceptedPlaytype l pt = true)
      ∧ ((∀ pt ∈ pts, update pt = .ok (f pt)) →
          UpdateUsersGameStats update pts = .ok (pts.map f).flatten)
      ∧ (∀ pt ∈ pts, ∀ e, update pt = .error e →
          ∃ e', UpdateUsersGameStats update pts = .error e') := by
  refine ⟨?_, ?_, ?_, ?_⟩
  · unfold ParseImportInfo
    rw [foldl_parseStep_scorePlaytypeMap]
    exact nodup_keys_foldl_mapStep l initParse.scorePlaytypeMap
      (by simp [initParse])
  · intro pt
    rw [← lookupGroup_isSome_iff, lookupGroup_parseImportInfo]
    by_cases h : hasAcceptedPlaytype l pt <;> simp [h]
  · intro h
    unfold UpdateUsersGameStats
    rw [collectAll_map_ok update f _ h]
  · intro pt hpt e he
    obtain ⟨e', he'⟩ := collectAll_error update _ pt hpt e he
    refine ⟨e', ?_⟩
    unfold UpdateUsersGameStats
    rw [he']

/-- Witness for C5: on the demo batch (subtypes SP and DP) the fan-out
succeeds with the flattened per-subtype results, and a failing per-subtype
update fails the whole stage. -/
theorem updateUsersGameStats_fanout_witness :
    UpdateUsersGameStats
        (fun pt => (Except.ok [pt] : Except String (List String)))
        ((ParseImportInfo demoBatch).scorePlaytypeMap.map Prod.fst)
      = .ok ((((ParseImportInfo demoBatch).scorePlaytypeMap.map
          Prod.fst).map fun pt => [pt]).flatten)
      ∧ ∃ e', UpdateUsersGameStats
          (fun _ => (Except.error "UGPTS failed" : Except String
            (List String)))
          ((ParseImportInfo demoBatch).scorePlaytypeMap.map Prod.fst)
        = .error e' := by
  constructor
  · exact (updateUsersGameStats_fanout
      (fun pt => (Except.ok [pt] : Except String (List String)))
      demoBatch (fun pt => [pt])).2.2.1 (fun pt _ => rfl)
  · exact (updateUsersGameStats_fanout
      (fun _ => (Except.error "UGPTS failed" : Except String (List String)))
      demoBatch (fun _ => [])).2.2.2 "SP" (by decide) "UGPTS failed" rfl

/-- C6.  The log severity at finalization is a pure function of the
accepted-score count: more than 500 accepted picks the high-severity
channel (`info`), 2 through 500 the medium one (`verbose`), and 0 or 1 the
low, diagnostic-only one (`debug`). -/
theorem chooseLogSeverity_pure (n : Nat) :
    (500 < n → chooseLogSeverity n = .info)
      ∧ (2 ≤ n ∧ n ≤ 500 → chooseLogSeverity n = .verbose)
      ∧ (n ≤ 1 → chooseLogSeverity n = .debug) := by
  refine ⟨fun h => ?_, fun h => ?_, fun h => ?_⟩
  · simp [chooseLogSeverity, h]
  · have h1 : ¬ n > 500 := by omega
    have h2 : n > 1 := by omega
    simp [chooseLogSeverity, h1, h2]
  · have h1 : ¬ n > 500 := by omega
    have h2 : ¬ n > 1 := by omega
    simp [chooseLogSeverity, h1, h2]

/-- Witness for C6: 600 accepted → high, 50 → medium, 1 → low. -/
theorem chooseLogSeverity_pure_witness :
    chooseLogSeverity 600 = .info ∧ chooseLogSeverity 50 = .verbose
      ∧ chooseLogSeverity 1 = .debug :=
  ⟨(chooseLogSeverity_pure 600).1 (by norm_num),
    (chooseLogSeverity_pure 50).2.1 (by norm_num),
    (chooseLogSeverity_pure 1).2.2 (by norm_num)⟩

/-- C2.  If any stage's collaborator call fails, the orchestrator aborts:
the caller receives the error of the first failing stage and nothing is
written to the imports sink (nor the timing sink); on success exactly one
ImportSummary — the returned one — is persisted. -/
theorem scoreImportMain_atomic {ε D σ δ γ μ : Type}
    (c : Collaborators ε D σ δ γ μ) (user : PublicUserDocument)
    (userIntent : Bool) (importType : String) (importID : String)
    (dateNow hrtime : Nat → Int) :
    (∀ e, (ScoreImportMain c user userIntent importType importID dateNow
          hrtime).result = .error e →
        (ScoreImportMain c user userIntent importType importID dateNow
            hrtime).importsWrites = []
          ∧ (ScoreImportMain c user userIntent importType importID dateNow
              hrtime).timingWrites = []
          ∧ StageFails c e)
      ∧ ∀ d, (ScoreImportMain c user userIntent importType importID dateNow
          hrtime).result = .ok d →
        (ScoreImportMain c user userIntent importType importID dateNow
            hrtime).importsWrites = [d] := by
  unfold ScoreImportMain
  cases hq : ScoreImportPipeline c user userIntent importType importID
      dateNow hrtime with
  | error e0 =>
    refine ⟨?_, ?_⟩
    · intro e he
      have he' : (Except.error e0 : Except ε (ImportDocument σ δ γ μ))
          = .error e := he
      injection he' with h1
      subst h1
      exact ⟨rfl, rfl, pipeline_error_stageFails c user userIntent
        importType importID dateNow hrtime e0 hq⟩
    · intro d hd
      exact Except.noConfusion
        (show (Except.error e0 : Except ε (ImportDocument σ δ γ μ))
          = .ok d from hd)
  | ok p =>
    obtain ⟨doc, timing⟩ := p
    refine ⟨?_, ?_⟩
    · intro e he
      exact Except.noConfusion
        (show (Except.ok doc : Except ε (ImportDocument σ δ γ μ))
          = .error e from he)
    · intro d hd
      have hd' : (Except.ok doc : Except ε (ImportDocument σ δ γ μ))
          = .ok d := hd
      injection hd' with h1
      subst h1
      rfl

/-- Witness for C2: the failing session builder leaves both sinks empty
and surfaces its own error, while the all-success run persists exactly the
returned document. -/
theorem scoreImportMain_atomic_witness :
    (badRun.importsWrites = [] ∧ badRun.timingWrites = []
        ∧ StageFails badCollab "CreateSessions failed")
      ∧ goodRun.importsWrites = [goodDoc] :=
  ⟨(scoreImportMain_atomic badCollab demoUser true "ir/direct" "imp1"
      demoDateNow demoHrtime).1 "CreateSessions failed" rfl,
    (scoreImportMain_atomic goodCollab demoUser true "ir/direct" "imp1"
      demoDateNow demoHrtime).2 goodDoc rfl⟩

/-- C7, amended.  Under monotone clocks, every run that returns a summary
has `timeFinished ≥ timeStarted`; the total and all absolute per-stage
durations in the persisted timing record are nonnegative for every input
batch; and each per-item relative duration is the JS division of its stage
duration by its item count — `≥ 0` whenever that count is nonzero, while
at a zero count (empty or all-failing batches) JavaScript records `NaN`
(which fails `>= 0`) or `+Infinity`. -/
theorem scoreImportMain_time_nonneg {ε D σ δ γ μ : Type}
    (c : Collaborators ε D σ δ γ μ) (user : PublicUserDocument)
    (userIntent : Bool) (importType : String) (importID : String)
    (dateNow hrtime : Nat → Int)
    (hd : Monotone dateNow) (hh : Monotone hrtime)
    (d : ImportDocument σ δ γ μ) (t : TimingRecord)
    (hres : (ScoreImportMain c user userIntent importType importID dateNow
        hrtime).result = .ok d)
    (ht : t ∈ (ScoreImportMain c user userIntent importType importID
        dateNow hrtime).timingWrites) :
    d.timeStarted ≤ d.timeFinished ∧ 0 ≤ t.total
      ∧ 0 ≤ t.absParse ∧ 0 ≤ t.absImport ∧ 0 ≤ t.absImportParse
      ∧ 0 ≤ t.absSession ∧ 0 ≤ t.absPb ∧ 0 ≤ t.absUgs ∧ 0 ≤ t.absGoal
      ∧ 0 ≤ t.absMilestone
      ∧ (∃ n : Nat, t.relImport = jsDiv t.absImport (n : ℚ)
          ∧ t.relImportParse = jsDiv t.absImportParse (n : ℚ)
          ∧ (0 < n → t.relImport.ge0 = true
              ∧ t.relImportParse.ge0 = true)
          ∧ (n = 0 →
              (t.relImport = JsNumber.nan ∨ t.relImport = JsNumber.posInf)
              ∧ (t.relImportParse = JsNumber.nan
                ∨ t.relImportParse = JsNumber.posInf)))
      ∧ (∃ n : Nat, t.relSession = jsDiv t.absSession (n : ℚ)
          ∧ (0 < n → t.relSession.ge0 = true)
          ∧ (n = 0 → t.relSession = JsNumber.nan
              ∨ t.relSession = JsNumber.posInf))
      ∧ (∃ n : Nat, t.relPb = jsDiv t.absPb (n : ℚ)
          ∧ (0 < n → t.relPb.ge0 = true)
          ∧ (n = 0 → t.relPb = JsNumber.nan
              ∨ t.relPb = JsNumber.posInf)) := by
  unfold ScoreImportMain at hres ht
  cases hq : ScoreImportPipeline c user userIntent importType importID
      dateNow hrtime with
  | error e =>
    rw [hq] at hres
    exact Except.noConfusion
      (show (Except.error e : Except ε (ImportDocument σ δ γ μ))
        = .ok d from hres)
  | ok p =>
    rw [hq] at hres ht
    obtain ⟨doc, timing⟩ := p
    have hres' : (Except.ok doc : Except ε (ImportDocument σ δ γ μ))
        = .ok d := hres
    injection hres' with h1
    subst h1
    have ht' : t ∈ [timing] := ht
    rw [List.mem_singleton] at ht'
    subst ht'
    obtain ⟨f1, f2, _f3, f4, f5, f6, f7, f8, f9, f10, f11, f12,
        ⟨n1, g1, g2⟩, ⟨n2, g3⟩, ⟨n3, g4⟩⟩ :=
      pipeline_ok_timing c user userIntent importType importID dateNow
        hrtime doc t hq
    have hd01 : dateNow 0 ≤ dateNow 1 := hd (by omega)
    have habsParse : 0 ≤ t.absParse := by
      rw [f5]; exact GetMilisecondsSince_nonneg (hh (by omega))
    have habsImport : 0 ≤ t.absImport := by
      rw [f6]; exact GetMilisecondsSince_nonneg (hh (by omega))
    have habsImportParse : 0 ≤ t.absImportParse := by
      rw [f7]; exact GetMilisecondsSince_nonneg (hh (by omega))
    have habsSession : 0 ≤ t.absSession := by
      rw [f8]; exact GetMilisecondsSince_nonneg (hh (by omega))
    have habsPb : 0 ≤ t.absPb := by
      rw [f9]; exact GetMilisecondsSince_nonneg (hh (by omega))
    have habsUgs : 0 ≤ t.absUgs := by
      rw [f10]; exact GetMilisecondsSince_nonneg (hh (by omega))
    have habsGoal : 0 ≤ t.absGoal := by
      rw [f11]; exact GetMilisecondsSince_nonneg (hh (by omega))
    have habsMilestone : 0 ≤ t.absMilestone := by
      rw [f12]; exact GetMilisecondsSince_nonneg (hh (by omega))
    refine ⟨by rw [f1, f2]; exact hd01, by rw [f4]; omega,
      habsParse, habsImport, habsImportParse, habsSession, habsPb,
      habsUgs, habsGoal, habsMilestone, ?_, ?_, ?_⟩
    · refine ⟨n1, g1, g2, fun hn => ⟨?_, ?_⟩, fun hn => ⟨?_, ?_⟩⟩
      · rw [g1]; exact (jsDiv_count_cases habsImport n1).1 hn
      · rw [g2]; exact (jsDiv_count_cases habsImportParse n1).1 hn
      · rw [g1]; exact (jsDiv_count_cases habsImport n1).2 hn
      · rw [g2]; exact (jsDiv_count_cases habsImportParse n1).2 hn
    · refine ⟨n2, g3, fun hn => ?_, fun hn => ?_⟩
      · rw [g3]; exact (jsDiv_count_cases habsSession n2).1 hn
      · rw [g3]; exact (jsDiv_count_cases habsSession n2).2 hn
    · refine ⟨n3, g4, fun hn => ?_, fun hn => ?_⟩
      · rw [g4]; exact (jsDiv_count_cases habsPb n3).1 hn
      · rw [g4]; exact (jsDiv_count_cases habsPb n3).2 hn

/-- Witness for C7 at the all-success concrete run. -/
theorem scoreImportMain_time_nonneg_witness :
    goodDoc.timeStarted ≤ goodDoc.timeFinished ∧ 0 ≤ goodTiming.total
      ∧ 0 ≤ goodTiming.absParse ∧ 0 ≤ goodTiming.absImport
      ∧ 0 ≤ goodTiming.absImportParse ∧ 0 ≤ goodTiming.absSession
      ∧ 0 ≤ goodTiming.absPb ∧ 0 ≤ goodTiming.absUgs
      ∧ 0 ≤ goodTiming.absGoal ∧ 0 ≤ goodTiming.absMilestone
      ∧ (∃ n : Nat,
          goodTiming.relImport = jsDiv goodTiming.absImport (n : ℚ)
          ∧ goodTiming.relImportParse
            = jsDiv goodTiming.absImportParse (n : ℚ)
          ∧ (0 < n → goodTiming.relImport.ge0 = true
              ∧ goodTiming.relImportParse.ge0 = true)
          ∧ (n = 0 →
              (goodTiming.relImport = JsNumber.nan
                ∨ goodTiming.relImport = JsNumber.posInf)
              ∧ (goodTiming.relImportParse = JsNumber.nan
                ∨ goodTiming.relImportParse = JsNumber.posInf)))
      ∧ (∃ n : Nat,
          goodTiming.relSession = jsDiv goodTiming.absSession (n : ℚ)
          ∧ (0 < n → goodTiming.relSession.ge0 = true)
          ∧ (n = 0 → goodTiming.relSession = JsNumber.nan
              ∨ goodTiming.relSession = JsNumber.posInf))
      ∧ (∃ n : Nat,
          goodTiming.relPb = jsDiv goodTiming.absPb (n : ℚ)
          ∧ (0 < n → goodTiming.relPb.ge0 = true)
          ∧ (n = 0 → goodTiming.relPb = JsNumber.nan
              ∨ goodTiming.relPb = JsNumber.posInf)) :=
  scoreImportMain_time_nonneg goodCollab demoUser true "ir/direct" "imp1"
    demoDateNow demoHrtime demoDateNow_mono demoHrtime_mono goodDoc
    goodTiming rfl (List.mem_singleton_self goodTiming)

/-- Counterexample to C7 as originally stated: at an empty batch whose two
import-stage hrtime readings coincide (the clocks still monotone), the
recorded per-item relative import time is `0 / 0`, which JavaScript stores
as `NaN`, and `NaN >= 0` is false — so not every recorded per-item
relative duration of a completed run is `≥ 0`. -/
theorem scoreImportMain_time_nonneg_counterexample :
    Monotone flatHrtime ∧ nanTiming ∈ nanRun.timingWrites
      ∧ nanTiming.relImport = JsNumber.nan
      ∧ nanTiming.relImport.ge0 = false := by
  have hrel : nanTiming.relImport = JsNumber.nan := by
    simp [nanTiming, nanRun, ScoreImportMain, ScoreImportPipeline,
      emptyCollab, ParseImportInfo, initParse, UpdateUsersGameStats,
      collectAll, GetMilisecondsSince, jsDiv, flatHrtime, demoDateNow]
  exact ⟨fun a b h => le_refl 0, List.mem_singleton_self nanTiming,
    hrel, by rw [hrel]; rfl⟩

/-- C10.  When the input iterable yields zero records, the orchestrator
(its collaborators succeeding on their empty inputs) runs to completion
despite the zero-count relative-time divisions and persists exactly one
ImportSummary with empty `scoreIDs`, `errors`, `idStrings` and sessions. -/
theorem scoreImportMain_empty_iterable {ε D σ δ γ μ : Type}
    (c : Collaborators ε D σ δ γ μ) (user : PublicUserDocument)
    (userIntent : Bool) (importType : String) (importID : String)
    (dateNow hrtime : Nat → Int) (g : String) (gi : γ) (mi : μ)
    (hp : c.inputParser = .ok ⟨[], g⟩)
    (hi : c.importAllIterableData [] = .ok [])
    (hs : c.createSessions g [] = .ok [])
    (hpb : c.processPBs [] = .ok ())
    (hg : c.updateUsersGoals g [] = .ok gi)
    (hm : c.updateUsersMilestones gi g [] = .ok mi) :
    ∃ dd, (ScoreImportMain c user userIntent importType importID dateNow
          hrtime).result = .ok dd
      ∧ (ScoreImportMain c user userIntent importType importID dateNow
          hrtime).importsWrites = [dd]
      ∧ dd.scoreIDs = [] ∧ dd.errors = [] ∧ dd.idStrings = []
      ∧ dd.createdSessions = [] := by
  unfold ScoreImportMain ScoreImportPipeline
  simp only [hp, hi, hs, hpb, hg, hm, ParseImportInfo, List.foldl_nil,
    initParse, UpdateUsersGameStats, collectAll, List.map_nil,
    List.flatten_nil]
  exact ⟨_, rfl, rfl, rfl, rfl, rfl, rfl⟩

/-- Witness for C10 at the concrete empty-batch run. -/
theorem scoreImportMain_empty_iterable_witness :
    ∃ dd, (ScoreImportMain emptyCollab demoUser false "ir/direct" "imp2"
          demoDateNow demoHrtime).result = .ok dd
      ∧ (ScoreImportMain emptyCollab demoUser false "ir/direct" "imp2"
          demoDateNow demoHrtime).importsWrites = [dd]
      ∧ dd.scoreIDs = [] ∧ dd.errors = [] ∧ dd.idStrings = []
      ∧ dd.createdSessions = [] :=
  scoreImportMain_empty_iterable emptyCollab demoUser false "ir/direct"
    "imp2" demoDateNow demoHrtime "iidx" 0 0 rfl rfl rfl rfl rfl rfl
